import Mathlib

/-!
Verification of the Ekhaya Legae public-content backend
(`src/main.py`, `src/schemas.py`) against its natural-language
specification.

The document store adapter (`database.py`: `create_document`,
`get_documents`, `db`) is imported by `main.py` but is not part of the
source tree; it is modelled from the specification (§4.2) where marked.
Everything else is a direct shallow embedding of the Python source.
-/

namespace Ekhaya

/-- A JSON-like value as stored in a document (string lists cover the
only list-typed field in the schemas, `Event.categories`). -/
inductive Value where
  | null : Value
  | str  : String → Value
  | int  : Int → Value
  | bool : Bool → Value
  | strlist : List String → Value
deriving Repr, DecidableEq

/-- A stored document: an association list from field names to values. -/
abbrev Document := List (String × Value)

/-- An exact-match filter: a mapping from field name to required value. -/
abbrev Filter := List (String × Value)

/-- Modelled from the spec: a document matches an exact-match filter when
every filter entry names a field present in the document with exactly the
required value; the empty filter matches all documents (§4.2, Glossary). -/
def matchesFilter (doc : Document) (f : Filter) : Bool :=
  f.all (fun kv => doc.lookup kv.1 == some kv.2)

/-- Modelled from the spec: `get_documents` (in `database.py`, absent from
the source tree) returns up to `limit` records matching the exact-match
filter, unbounded when `limit` is absent (§4.2 `query`). -/
def get_documents (coll : List Document) (f : Filter) (limit : Option Nat) :
    List Document :=
  let matched := coll.filter (fun doc => matchesFilter doc f)
  match limit with
  | none => matched
  | some n => matched.take n

/-- Outcome of reaching a collection in the store: either its current
contents, or a store error carrying a message (the exception text the
Python handlers catch). -/
def StoreRead := Except String (List Document)

/-- Response of a list endpoint: HTTP status, the `items` field and the
optional `error` field of the JSON body. Handlers that return a plain
dict get FastAPI's default success status 200. -/
structure ListResponse where
  status : Nat
  items : List Document
  error : Option String
deriving Repr, DecidableEq

/-- Endpoint `GET /api/events` (`main.py` `list_events`): query "event" with empty
filter and the given limit (route default 10); on a store exception return
`{items: [], error: str(e)}` with success status. -/
def list_events (store : StoreRead) (limit : Option Nat) : ListResponse :=
  let lim := limit.getD 10
  match store with
  | .ok coll => { status := 200, items := get_documents coll [] (some lim), error := none }
  | .error e => { status := 200, items := [], error := some e }

/-- Python truthiness of an optional string parameter: `None` and the
empty string are falsy (`if type:` in `list_resources`). -/
def optStrTruthy : Option String → Bool
  | some s => s ≠ ""
  | none => false

/-- The filter `list_resources` builds from its `type` and `language`
query parameters: an entry is added for a parameter exactly when it is
truthy (`if type: query["type"] = type`, likewise `language`). -/
def resourcesQuery (qtype qlang : Option String) : Filter :=
  let q : Filter := []
  let q := if optStrTruthy qtype then q ++ [("type", Value.str (qtype.getD ""))] else q
  let q := if optStrTruthy qlang then q ++ [("language", Value.str (qlang.getD ""))] else q
  q

/-- Endpoint `GET /api/resources` (`main.py` `list_resources`): query "resource"
with the built filter and the given limit (route default 20); degrades
like events on a store exception. -/
def list_resources (store : StoreRead) (qtype qlang : Option String)
    (limit : Option Nat) : ListResponse :=
  let lim := limit.getD 20
  match store with
  | .ok coll =>
      { status := 200,
        items := get_documents coll (resourcesQuery qtype qlang) (some lim),
        error := none }
  | .error e => { status := 200, items := [], error := some e }

/-- Endpoint `GET /api/partners` (`main.py` `list_partners`): query "partner" with
empty filter, route default limit 20; degrades like events. -/
def list_partners (store : StoreRead) (limit : Option Nat) : ListResponse :=
  let lim := limit.getD 20
  match store with
  | .ok coll => { status := 200, items := get_documents coll [] (some lim), error := none }
  | .error e => { status := 200, items := [], error := some e }

/-- Endpoint `GET /api/stories` (`main.py` `list_stories`): query "story" with
filter `{"featured": true}`, route default limit 10; degrades like
events. -/
def list_stories (store : StoreRead) (limit : Option Nat) : ListResponse :=
  let lim := limit.getD 10
  match store with
  | .ok coll =>
      { status := 200,
        items := get_documents coll [("featured", Value.bool true)] (some lim),
        error := none }
  | .error e => { status := 200, items := [], error := some e }

/-- The fixed four-entry fallback list of `list_stats` (`main.py`
lines 146-151 and 155-161). -/
def statsFallback : List Document :=
  [ [("label", Value.str "Tests Conducted"), ("value", Value.int 0)],
    [("label", Value.str "Youth Trained"), ("value", Value.int 0)],
    [("label", Value.str "Communities Served"), ("value", Value.int 0)],
    [("label", Value.str "Lives Impacted"), ("value", Value.int 0)] ]

/-- Endpoint `GET /api/stats` (`main.py` `list_stats`): query "sitestat" with empty
filter and no limit; if the result is falsy (empty) the fallback list is
substituted; on a store exception the fallback list is returned. -/
def list_stats (store : StoreRead) : ListResponse :=
  match store with
  | .ok coll =>
      let items := get_documents coll [] none
      let items := if items.isEmpty then statsFallback else items
      { status := 200, items := items, error := none }
  | .error _ => { status := 200, items := statsFallback, error := none }

/-! ### Document store (write side)

`create_document` lives in `database.py`, which is not part of the source
tree; it is modelled from §4.2 of the specification. -/

/-- Store state: `fail = some msg` models a store where any operation
raises an exception with message `msg` (covering both `StoreUnavailable`
and `StoreError` of §4.2/§7); `fail = none` models a working connection.
`collections` maps a collection name to its current contents. -/
structure Store where
  fail : Option String
  collections : String → List Document

/-- Modelled from the spec: the store assigns a unique identifier to each
inserted document and returns it as an opaque, non-empty string (§3). -/
def mkDocumentId (coll : List Document) : String :=
  "doc-" ++ toString (coll.length + 1)

/-- Modelled from the spec: `insert(collectionName, record)` appends the
record to the named collection and returns the new id, or fails with the
store's error message when the database is unreachable (§4.2 `insert`). -/
def create_document (s : Store) (name : String) (doc : Document) :
    Except String (String × Store) :=
  match s.fail with
  | some msg => .error msg
  | none =>
      let id := mkDocumentId (s.collections name)
      .ok (id, { s with collections := fun n =>
        if n = name then s.collections name ++ [doc] else s.collections n })

/-- Result of a write endpoint: the success envelope
`{id: ..., status: "ok"}`, FastAPI's validation failure (client error
status with field-level errors), or a raised `HTTPException` with status
code and detail. -/
inductive WriteResult where
  | ok (id : String) (status : String)
  | validationError (status : Nat) (errors : List (String × String))
  | serviceError (status : Nat) (detail : String)
deriving Repr

/-! ### Schema validation (`src/schemas.py`)

Raw request bodies are association-free records with one optional slot
per declared field; `none` models an absent field. Email syntax checking
is Pydantic's `EmailStr` (third-party, not in the source tree), so it is
modelled from the spec: "email must be syntactically valid" (§3). -/

/-- Modelled from the spec: syntactic email validity (`EmailStr`): exactly
one `@`, a non-empty local part, a non-empty domain containing a dot,
neither part containing spaces and the domain not starting or ending with
a dot. -/
def isValidEmail (s : String) : Bool :=
  let cs := s.toList
  (cs.count '@' == 1) &&
  (let lp := cs.takeWhile (fun c => c ≠ '@')
   let dom := (cs.dropWhile (fun c => c ≠ '@')).drop 1
   !lp.isEmpty && !dom.isEmpty &&
   !lp.contains ' ' && !dom.contains ' ' &&
   dom.contains '.' && dom.head? ≠ some '.' && dom.getLast? ≠ some '.')

/-- Raw body of `POST /api/bookings` before validation. -/
structure RawBooking where
  event_id : Option String := none
  full_name : Option String := none
  email : Option String := none
  phone : Option String := none
  ticket_quantity : Option Int := none
  notes : Option String := none
  consent_sms : Option Bool := none
deriving Repr, DecidableEq

/-- Model `Booking` (`schemas.py`): validated booking record, defaults applied
(`ticket_quantity = 1`, `consent_sms = False`). -/
structure Booking where
  event_id : String
  full_name : String
  email : String
  phone : Option String
  ticket_quantity : Int
  notes : Option String
  consent_sms : Bool
deriving Repr, DecidableEq

/-- Field-level validation errors Pydantic reports for a raw booking:
missing required fields, invalid email, `ticket_quantity` outside
`[1, 10]` (`Field(1, ge=1, le=10)`). -/
def Booking.validationErrors (b : RawBooking) : List (String × String) :=
  (if b.event_id.isNone then [("event_id", "Field required")] else []) ++
  (if b.full_name.isNone then [("full_name", "Field required")] else []) ++
  (match b.email with
    | none => [("email", "Field required")]
    | some e =>
        if isValidEmail e then []
        else [("email", "value is not a valid email address")]) ++
  (match b.ticket_quantity with
    | none => []
    | some q =>
        if q < 1 then
          [("ticket_quantity", "Input should be greater than or equal to 1")]
        else if 10 < q then
          [("ticket_quantity", "Input should be less than or equal to 10")]
        else [])

/-- Pydantic validation of a raw booking body against the `Booking`
schema: all errors are collected; on success defaults are applied. -/
def Booking.validate (b : RawBooking) : Except (List (String × String)) Booking :=
  match b.event_id, b.full_name, b.email with
  | some ev, some fn, some em =>
      if Booking.validationErrors b = [] then
        .ok { event_id := ev, full_name := fn, email := em, phone := b.phone,
              ticket_quantity := b.ticket_quantity.getD 1, notes := b.notes,
              consent_sms := b.consent_sms.getD false }
      else .error (Booking.validationErrors b)
  | _, _, _ => .error (Booking.validationErrors b)

/-- The record persisted for a validated booking: its fields verbatim. -/
def Booking.toDocument (b : Booking) : Document :=
  [("event_id", Value.str b.event_id), ("full_name", Value.str b.full_name),
   ("email", Value.str b.email),
   ("phone", (b.phone.map Value.str).getD Value.null),
   ("ticket_quantity", Value.int b.ticket_quantity),
   ("notes", (b.notes.map Value.str).getD Value.null),
   ("consent_sms", Value.bool b.consent_sms)]

/-- Raw body of `POST /api/applications` before validation. -/
structure RawTrainingApplication where
  full_name : Option String := none
  email : Option String := none
  phone : Option String := none
  age : Option Int := none
  highest_qualification : Option String := none
  area : Option String := none
  motivation : Option String := none
  consent_sms : Option Bool := none
deriving Repr, DecidableEq

/-- Model `TrainingApplication` (`schemas.py`): validated application record. -/
structure TrainingApplication where
  full_name : String
  email : String
  phone : String
  age : Option Int
  highest_qualification : Option String
  area : Option String
  motivation : Option String
  consent_sms : Bool
deriving Repr, DecidableEq

/-- Field-level validation errors for a raw training application:
missing required fields, invalid email, `age` outside `[16, 100]`
(`Field(None, ge=16, le=100)`). -/
def TrainingApplication.validationErrors (t : RawTrainingApplication) :
    List (String × String) :=
  (if t.full_name.isNone then [("full_name", "Field required")] else []) ++
  (match t.email with
    | none => [("email", "Field required")]
    | some e =>
        if isValidEmail e then []
        else [("email", "value is not a valid email address")]) ++
  (if t.phone.isNone then [("phone", "Field required")] else []) ++
  (match t.age with
    | none => []
    | some a =>
        if a < 16 then [("age", "Input should be greater than or equal to 16")]
        else if 100 < a then [("age", "Input should be less than or equal to 100")]
        else [])

/-- Pydantic validation of a raw training-application body. -/
def TrainingApplication.validate (t : RawTrainingApplication) :
    Except (List (String × String)) TrainingApplication :=
  match t.full_name, t.email, t.phone with
  | some fn, some em, some ph =>
      if TrainingApplication.validationErrors t = [] then
        .ok { full_name := fn, email := em, phone := ph, age := t.age,
              highest_qualification := t.highest_qualification,
              area := t.area, motivation := t.motivation,
              consent_sms := t.consent_sms.getD false }
      else .error (TrainingApplication.validationErrors t)
  | _, _, _ => .error (TrainingApplication.validationErrors t)

/-- The record persisted for a validated training application. -/
def TrainingApplication.toDocument (t : TrainingApplication) : Document :=
  [("full_name", Value.str t.full_name), ("email", Value.str t.email),
   ("phone", Value.str t.phone),
   ("age", (t.age.map Value.int).getD Value.null),
   ("highest_qualification",
     (t.highest_qualification.map Value.str).getD Value.null),
   ("area", (t.area.map Value.str).getD Value.null),
   ("motivation", (t.motivation.map Value.str).getD Value.null),
   ("consent_sms", Value.bool t.consent_sms)]

/-- Raw body of `POST /api/contact` before validation. -/
structure RawContactMessage where
  name : Option String := none
  email : Option String := none
  phone : Option String := none
  subject : Option String := none
  message : Option String := none
deriving Repr, DecidableEq

/-- Model `ContactMessage` (`schemas.py`): validated contact-message record. -/
structure ContactMessage where
  name : String
  email : String
  phone : Option String
  subject : String
  message : String
deriving Repr, DecidableEq

/-- Field-level validation errors for a raw contact message: missing
required fields, invalid email. -/
def ContactMessage.validationErrors (c : RawContactMessage) :
    List (String × String) :=
  (if c.name.isNone then [("name", "Field required")] else []) ++
  (match c.email with
    | none => [("email", "Field required")]
    | some e =>
        if isValidEmail e then []
        else [("email", "value is not a valid email address")]) ++
  (if c.subject.isNone then [("subject", "Field required")] else []) ++
  (if c.message.isNone then [("message", "Field required")] else [])

/-- Pydantic validation of a raw contact-message body. -/
def ContactMessage.validate (c : RawContactMessage) :
    Except (List (String × String)) ContactMessage :=
  match c.name, c.email, c.subject, c.message with
  | some nm, some em, some su, some me =>
      if ContactMessage.validationErrors c = [] then
        .ok { name := nm, email := em, phone := c.phone, subject := su,
              message := me }
      else .error (ContactMessage.validationErrors c)
  | _, _, _, _ => .error (ContactMessage.validationErrors c)

/-- The record persisted for a validated contact message. -/
def ContactMessage.toDocument (c : ContactMessage) : Document :=
  [("name", Value.str c.name), ("email", Value.str c.email),
   ("phone", (c.phone.map Value.str).getD Value.null),
   ("subject", Value.str c.subject), ("message", Value.str c.message)]

/-! ### Write endpoints (`src/main.py`) -/

/-- Endpoint `POST /api/bookings` handler (`main.py` `create_booking`): insert the
validated booking into "booking"; on success return
`{"id": inserted_id, "status": "ok"}`; on any exception raise
`HTTPException(503, str(e))`, leaving the store untouched. -/
def create_booking (b : Booking) (s : Store) : WriteResult × Store :=
  match create_document s "booking" b.toDocument with
  | .ok (id, s2) => (.ok id "ok", s2)
  | .error e => (.serviceError 503 e, s)

/-- Endpoint `POST /api/applications` handler (`main.py`
`submit_training_application`): same contract against
"trainingapplication". -/
def submit_training_application (t : TrainingApplication) (s : Store) :
    WriteResult × Store :=
  match create_document s "trainingapplication" t.toDocument with
  | .ok (id, s2) => (.ok id "ok", s2)
  | .error e => (.serviceError 503 e, s)

/-- Endpoint `POST /api/contact` handler (`main.py` `submit_contact_message`):
same contract against "contactmessage". -/
def submit_contact_message (c : ContactMessage) (s : Store) :
    WriteResult × Store :=
  match create_document s "contactmessage" c.toDocument with
  | .ok (id, s2) => (.ok id "ok", s2)
  | .error e => (.serviceError 503 e, s)

/-- Modelled from the spec: the FastAPI routing layer validates the
request body against the declared schema before invoking the handler;
a validation failure yields a client error (422) with per-field messages
and the handler — hence the store — is never reached (§4.1, §7). -/
def post_bookings (raw : RawBooking) (s : Store) : WriteResult × Store :=
  match Booking.validate raw with
  | .error errs => (.validationError 422 errs, s)
  | .ok b => create_booking b s

/-- Modelled from the spec: route pipeline of `POST /api/applications`
(body validation, then the handler). -/
def post_applications (raw : RawTrainingApplication) (s : Store) :
    WriteResult × Store :=
  match TrainingApplication.validate raw with
  | .error errs => (.validationError 422 errs, s)
  | .ok t => submit_training_application t s

/-- Modelled from the spec: route pipeline of `POST /api/contact`
(body validation, then the handler). -/
def post_contact (raw : RawContactMessage) (s : Store) :
    WriteResult × Store :=
  match ContactMessage.validate raw with
  | .error errs => (.validationError 422 errs, s)
  | .ok c => submit_contact_message c s

/-! ### Schema introspection (`GET /api/schema`)

Each Pydantic model's `model_fields` is transcribed from
`src/schemas.py`: a field with `...` (or no assigned value) has no
default and is required; every other field carries its declared default
(`None`, `1`, `False`, `"published"`, `[]`, `"English"`, `0`). -/

/-- One Pydantic field as declared in `schemas.py`: `default = none`
means the field has no default (Pydantic `is_required()` is true). -/
structure FieldSpec where
  name : String
  default : Option Value
deriving Repr, DecidableEq

/-- Pydantic `FieldInfo.is_required()`: a field is required exactly when
it has no default. -/
def FieldSpec.required (f : FieldSpec) : Bool := f.default.isNone

def Event.model_fields : List FieldSpec :=
  [⟨"title", none⟩, ⟨"description", some Value.null⟩, ⟨"start_time", none⟩,
   ⟨"end_time", none⟩, ⟨"location", none⟩, ⟨"organizer", some Value.null⟩,
   ⟨"capacity", some Value.null⟩, ⟨"status", some (Value.str "published")⟩,
   ⟨"categories", some (Value.strlist [])⟩]

def Booking.model_fields : List FieldSpec :=
  [⟨"event_id", none⟩, ⟨"full_name", none⟩, ⟨"email", none⟩,
   ⟨"phone", some Value.null⟩, ⟨"ticket_quantity", some (Value.int 1)⟩,
   ⟨"notes", some Value.null⟩, ⟨"consent_sms", some (Value.bool false)⟩]

def TrainingApplication.model_fields : List FieldSpec :=
  [⟨"full_name", none⟩, ⟨"email", none⟩, ⟨"phone", none⟩,
   ⟨"age", some Value.null⟩, ⟨"highest_qualification", some Value.null⟩,
   ⟨"area", some Value.null⟩, ⟨"motivation", some Value.null⟩,
   ⟨"consent_sms", some (Value.bool false)⟩]

def ContactMessage.model_fields : List FieldSpec :=
  [⟨"name", none⟩, ⟨"email", none⟩, ⟨"phone", some Value.null⟩,
   ⟨"subject", none⟩, ⟨"message", none⟩]

def Story.model_fields : List FieldSpec :=
  [⟨"title", none⟩, ⟨"body", none⟩, ⟨"author", some Value.null⟩,
   ⟨"featured", some (Value.bool false)⟩]

def Partner.model_fields : List FieldSpec :=
  [⟨"name", none⟩, ⟨"logo_url", some Value.null⟩,
   ⟨"website", some Value.null⟩, ⟨"category", some Value.null⟩]

def Resource.model_fields : List FieldSpec :=
  [⟨"title", none⟩, ⟨"type", none⟩, ⟨"url", none⟩,
   ⟨"description", some Value.null⟩, ⟨"language", some (Value.str "English")⟩]

def SiteStat.model_fields : List FieldSpec :=
  [⟨"label", none⟩, ⟨"value", some (Value.int 0)⟩]

/-- One field entry of the `/api/schema` response body. -/
structure SchemaField where
  name : String
  required : Bool
  default : Option Value
deriving Repr, DecidableEq

/-- One collection entry of the `/api/schema` response body. -/
structure SchemaEntry where
  collection : String
  fields : List SchemaField
deriving Repr, DecidableEq

/-- Helper `model_schema` (`main.py` `get_schema`, inner helper): for each
declared field, its name, `is_required()` flag and
`None if required else default`. -/
def model_schema (name : String) (fields : List FieldSpec) : SchemaEntry :=
  { collection := name,
    fields := fields.map (fun f =>
      { name := f.name, required := f.required,
        default := if f.required then none else f.default }) }

/-- Endpoint `GET /api/schema` (`main.py` `get_schema`): one entry per registered
collection, keyed by the lowercase model name. -/
def get_schema : List (String × SchemaEntry) :=
  [("event", model_schema "event" Event.model_fields),
   ("booking", model_schema "booking" Booking.model_fields),
   ("trainingapplication",
     model_schema "trainingapplication" TrainingApplication.model_fields),
   ("contactmessage",
     model_schema "contactmessage" ContactMessage.model_fields),
   ("story", model_schema "story" Story.model_fields),
   ("partner", model_schema "partner" Partner.model_fields),
   ("resource", model_schema "resource" Resource.model_fields),
   ("sitestat", model_schema "sitestat" SiteStat.model_fields)]

/-- The eight collection names of the data model (§3). -/
def collectionNames : List String :=
  ["event", "booking", "trainingapplication", "contactmessage",
   "story", "partner", "resource", "sitestat"]

/-- From the spec, §3 data-model table: the required fields of each
entity, keyed by collection name. -/
def specRequiredFields : String → List String
  | "event" => ["title", "start_time", "end_time", "location"]
  | "booking" => ["event_id", "full_name", "email"]
  | "trainingapplication" => ["full_name", "email", "phone"]
  | "contactmessage" => ["name", "email", "subject", "message"]
  | "story" => ["title", "body"]
  | "partner" => ["name"]
  | "resource" => ["title", "type", "url"]
  | "sitestat" => ["label"]
  | _ => []

/-- From the spec, §3 data-model table: the optional fields of each
entity, keyed by collection name. -/
def specOptionalFields : String → List String
  | "event" => ["description", "organizer", "capacity", "status", "categories"]
  | "booking" => ["phone", "ticket_quantity", "notes", "consent_sms"]
  | "trainingapplication" =>
      ["age", "highest_qualification", "area", "motivation", "consent_sms"]
  | "contactmessage" => ["phone"]
  | "story" => ["author", "featured"]
  | "partner" => ["logo_url", "website", "category"]
  | "resource" => ["description", "language"]
  | "sitestat" => ["value"]
  | _ => []

/-! ### `GET /test` diagnostic (`src/main.py` `test_database`) -/

/-- Python `str(e)[:80]`: the first `n` characters of a string. -/
def pyTruncate (s : String) (n : Nat) : String := String.mk (s.toList.take n)

/-- The outcomes of the three fallible diagnostic steps of `GET /test`:
the connection check (`db is not None`), the database-name lookup
(`getattr(db, 'name', None)`) and the collection listing
(`db.list_collection_names()`). An `error` value carries the text of the
exception the step would raise. -/
structure DiagSteps where
  connCheck : Except String Bool
  nameLookup : Except String (Option String)
  listCollectionNames : Except String (List String)

/-- The JSON body `GET /test` returns. The `database_url` and
`database_name` keys are unconditionally overwritten from the
environment just before returning (`main.py` lines 53-54), so they are
pure functions of the two environment flags. -/
structure TestResponse where
  backend : String
  database : String
  database_url : String
  database_name : String
  connection_status : String
  collections : List String
deriving Repr, DecidableEq

/-- Endpoint `GET /test` (`main.py` `test_database`): the outer `try` catches any
failure of the connection check or the name lookup (`❌ Error: ...`), the
inner `try` catches a failure of the collection listing
(`⚠️ Connected but Error: ...`); every branch falls through to the final
environment-flag overwrites and the `return`. -/
def test_database (steps : DiagSteps) (urlSet nameSet : Bool) : TestResponse :=
  let urlMsg := if urlSet then "✅ Set" else "❌ Not Set"
  let nameMsg := if nameSet then "✅ Set" else "❌ Not Set"
  let base : TestResponse :=
    { backend := "✅ Running", database := "❌ Not Available",
      database_url := urlMsg, database_name := nameMsg,
      connection_status := "Not Connected", collections := [] }
  match steps.connCheck with
  | .error e => { base with database := "❌ Error: " ++ pyTruncate e 80 }
  | .ok false => { base with database := "⚠️ Available but not initialized" }
  | .ok true =>
      match steps.nameLookup with
      | .error e => { base with database := "❌ Error: " ++ pyTruncate e 80 }
      | .ok _ =>
          match steps.listCollectionNames with
          | .error e =>
              { base with
                  database := "⚠️ Connected but Error: " ++ pyTruncate e 80,
                  connection_status := "Connected" }
          | .ok cs =>
              { base with
                  database := "✅ Connected & Working",
                  connection_status := "Connected",
                  collections := cs }

/-! ### Definitions supporting statements and witnesses -/

/-- A raw booking body is missing one of its required fields. -/
def RawBooking.missingRequired (b : RawBooking) : Bool :=
  b.event_id.isNone || b.full_name.isNone || b.email.isNone

/-- A raw booking body carries a syntactically invalid email. -/
def RawBooking.invalidEmail (b : RawBooking) : Bool :=
  match b.email with
  | some e => !isValidEmail e
  | none => false

/-- A raw training-application body is missing a required field. -/
def RawTrainingApplication.missingRequired (t : RawTrainingApplication) : Bool :=
  t.full_name.isNone || t.email.isNone || t.phone.isNone

/-- A raw training-application body carries an invalid email. -/
def RawTrainingApplication.invalidEmail (t : RawTrainingApplication) : Bool :=
  match t.email with
  | some e => !isValidEmail e
  | none => false

/-- A raw contact-message body is missing a required field. -/
def RawContactMessage.missingRequired (c : RawContactMessage) : Bool :=
  c.name.isNone || c.email.isNone || c.subject.isNone || c.message.isNone

/-- A raw contact-message body carries an invalid email. -/
def RawContactMessage.invalidEmail (c : RawContactMessage) : Bool :=
  match c.email with
  | some e => !isValidEmail e
  | none => false

/-- From the spec, §3 Booking row: a booking body is acceptable iff
`event_id`, `full_name` and `email` are present, the email is
syntactically valid, and `ticket_quantity`, when present, lies in
`[1, 10]`. -/
def Booking.specAccepts (b : RawBooking) : Bool :=
  b.event_id.isSome && b.full_name.isSome &&
  (match b.email with
    | some e => isValidEmail e
    | none => false) &&
  (match b.ticket_quantity with
    | some q => decide (1 ≤ q) && decide (q ≤ 10)
    | none => true)

/-- A concrete valid booking body (only the required fields). -/
def rb0 : RawBooking :=
  { event_id := some "ev1", full_name := some "Jo", email := some "jo@x.org" }

/-- The record `rb0` validates to, defaults applied. -/
def bk0 : Booking :=
  { event_id := "ev1", full_name := "Jo", email := "jo@x.org", phone := none,
    ticket_quantity := 1, notes := none, consent_sms := false }

/-- A concrete store with a working connection and empty collections. -/
def emptyStore : Store := { fail := none, collections := fun _ => [] }

/-- A concrete resource document whose `type` is `"pdf"`. -/
def pdfDoc : Document :=
  [("title", Value.str "Guide"), ("type", Value.str "pdf"),
   ("url", Value.str "u")]

/-! ### Helper lemmas -/

theorem matchesFilter_nil (d : Document) : matchesFilter d [] = true := rfl

theorem filter_matchesFilter_nil (coll : List Document) :
    coll.filter (fun d => matchesFilter d []) = coll :=
  List.filter_eq_self.mpr (fun _ _ => rfl)

theorem get_documents_nil_none (coll : List Document) :
    get_documents coll [] none = coll := by
  simp [get_documents, filter_matchesFilter_nil]

theorem mkDocumentId_length_pos (l : List Document) :
    0 < (mkDocumentId l).length := by
  unfold mkDocumentId
  rw [String.length_append]
  have h : "doc-".length = 4 := rfl
  omega

/-! ### Claim theorems -/

/-- C4: every read/list endpoint (`GET /api/events`, `/api/resources`,
`/api/partners`, `/api/stories`) turns a store error into
`{items: [], error: <message>}` with HTTP success status 200, and on
success returns `{items: <records>}` with no error field. -/
theorem read_endpoints_degrade_gracefully :
    ∀ (coll : List Document) (e : String) (limit : Option Nat)
      (qt ql : Option String),
      list_events (.error e) limit =
        { status := 200, items := [], error := some e } ∧
      list_events (.ok coll) limit =
        { status := 200, items := get_documents coll [] (some (limit.getD 10)),
          error := none } ∧
      list_resources (.error e) qt ql limit =
        { status := 200, items := [], error := some e } ∧
      list_resources (.ok coll) qt ql limit =
        { status := 200,
          items := get_documents coll (resourcesQuery qt ql)
            (some (limit.getD 20)),
          error := none } ∧
      list_partners (.error e) limit =
        { status := 200, items := [], error := some e } ∧
      list_partners (.ok coll) limit =
        { status := 200, items := get_documents coll [] (some (limit.getD 20)),
          error := none } ∧
      list_stories (.error e) limit =
        { status := 200, items := [], error := some e } ∧
      list_stories (.ok coll) limit =
        { status := 200,
          items := get_documents coll [("featured", Value.bool true)]
            (some (limit.getD 10)),
          error := none } := by
  intro coll e limit qt ql
  exact ⟨rfl, rfl, rfl, rfl, rfl, rfl, rfl, rfl⟩

/-- C3: `GET /api/stats` returns exactly the four zero-valued fallback
entries when the store query yields an empty result and when it raises an
error; a non-empty result is returned unchanged. -/
theorem stats_fallback_exact :
    ∀ (e : String) (d : Document) (rest : List Document),
      list_stats (.error e) =
        { status := 200, items := statsFallback, error := none } ∧
      list_stats (.ok []) =
        { status := 200, items := statsFallback, error := none } ∧
      list_stats (.ok (d :: rest)) =
        { status := 200, items := d :: rest, error := none } := by
  intro e d rest
  refine ⟨rfl, rfl, ?_⟩
  simp [list_stats, get_documents, filter_matchesFilter_nil]

/-- C10: the `items` list of every `GET /api/stats` response is
non-empty: a non-empty store result is returned as-is, and the empty and
error outcomes are both replaced by the four-entry fallback. -/
theorem stats_items_never_empty :
    ∀ (store : StoreRead) (e : String) (d : Document) (rest : List Document),
      ((list_stats store).items).isEmpty = false ∧
      (list_stats (.ok (d :: rest))).items = d :: rest ∧
      (list_stats (.error e)).items = statsFallback ∧
      (list_stats (.ok [])).items = statsFallback := by
  intro store e d rest
  refine ⟨?_, ?_, rfl, rfl⟩
  · cases store with
    | error e2 => rfl
    | ok coll =>
        simp only [list_stats, get_documents_nil_none]
        by_cases h : coll.isEmpty
        · simp [h, statsFallback]
        · simp [h]
  · simp [list_stats, get_documents_nil_none]

/-- C8: `GET /test` returns a success response for every store state:
a failure at the connection check or the database-name lookup is caught
and reported as `❌ Error: <message>`, a failure of the collection
listing as `⚠️ Connected but Error: <message>`, and in every case the
handler returns a body (with `backend` reporting the service as
running) rather than letting an exception escape. -/
theorem test_database_reports_all_failures :
    ∀ (e : String) (v : Option String) (cs : List String)
      (nl : Except String (Option String)) (lc : Except String (List String))
      (steps : DiagSteps) (u n : Bool),
      (test_database ⟨.error e, nl, lc⟩ u n).database =
        "❌ Error: " ++ pyTruncate e 80 ∧
      (test_database ⟨.ok true, .error e, lc⟩ u n).database =
        "❌ Error: " ++ pyTruncate e 80 ∧
      (test_database ⟨.ok true, .ok v, .error e⟩ u n).database =
        "⚠️ Connected but Error: " ++ pyTruncate e 80 ∧
      (test_database ⟨.ok true, .ok v, .ok cs⟩ u n).database =
        "✅ Connected & Working" ∧
      (test_database ⟨.ok true, .ok v, .ok cs⟩ u n).collections = cs ∧
      (test_database ⟨.ok false, nl, lc⟩ u n).database =
        "⚠️ Available but not initialized" ∧
      (test_database steps u n).backend = "✅ Running" := by
  intro e v cs nl lc steps u n
  obtain ⟨cc, nl2, lc2⟩ := steps
  refine ⟨rfl, rfl, rfl, rfl, rfl, rfl, ?_⟩
  cases cc with
  | error e2 => rfl
  | ok b =>
      cases b with
      | false => rfl
      | true =>
          cases nl2 with
          | error e2 => rfl
          | ok v2 =>
              cases lc2 with
              | error e2 => rfl
              | ok cs2 => rfl

/-- C9: for `GET /api/resources`, a `type` query parameter supplied as
the empty string behaves exactly like an absent parameter (the handler
gates on truthiness), and symmetrically for `language`. -/
theorem empty_param_treated_as_absent :
    ∀ (store : StoreRead) (qt ql : Option String) (limit : Option Nat),
      list_resources store (some "") ql limit =
        list_resources store none ql limit ∧
      list_resources store qt (some "") limit =
        list_resources store qt none limit := by
  intro store qt ql limit
  constructor
  · cases store <;> rfl
  · cases store <;> rfl

/-- C1: each write endpoint handler (`create_booking`,
`submit_training_application`, `submit_contact_message`) returns the
envelope `{id: <non-empty string>, status: "ok"}` when the store insert
succeeds, and surfaces a store failure as an `HTTPException` with status
503 carrying the store's error message — never as a success response —
leaving the store unchanged. -/
theorem write_endpoints_success_and_failure :
    ∀ (cols : String → List Document) (msg : String)
      (b : Booking) (t : TrainingApplication) (c : ContactMessage),
      (create_booking b ⟨none, cols⟩).1 =
        .ok (mkDocumentId (cols "booking")) "ok" ∧
      (submit_training_application t ⟨none, cols⟩).1 =
        .ok (mkDocumentId (cols "trainingapplication")) "ok" ∧
      (submit_contact_message c ⟨none, cols⟩).1 =
        .ok (mkDocumentId (cols "contactmessage")) "ok" ∧
      0 < (mkDocumentId (cols "booking")).length ∧
      0 < (mkDocumentId (cols "trainingapplication")).length ∧
      0 < (mkDocumentId (cols "contactmessage")).length ∧
      create_booking b ⟨some msg, cols⟩ =
        (.serviceError 503 msg, ⟨some msg, cols⟩) ∧
      submit_training_application t ⟨some msg, cols⟩ =
        (.serviceError 503 msg, ⟨some msg, cols⟩) ∧
      submit_contact_message c ⟨some msg, cols⟩ =
        (.serviceError 503 msg, ⟨some msg, cols⟩) := by
  intro cols msg b t c
  exact ⟨rfl, rfl, rfl, mkDocumentId_length_pos _, mkDocumentId_length_pos _,
    mkDocumentId_length_pos _, rfl, rfl, rfl⟩

/-- C6: `GET /api/schema` has exactly the eight collection entries, each
listing precisely the fields of the §3 data-model table, with the
required flag set exactly on the fields §3 declares required (i.e. the
fields with no default). -/
theorem get_schema_matches_data_model :
    (get_schema.map Prod.fst = collectionNames) ∧
    (get_schema.all (fun p =>
        decide (List.Perm (p.2.fields.map SchemaField.name)
          (specRequiredFields p.1 ++ specOptionalFields p.1)) &&
        p.2.fields.all (fun f =>
          f.required == decide (f.name ∈ specRequiredFields p.1))) = true) := by
  constructor
  · rfl
  · decide

/-- C7 counterexample: a request carrying the query parameter `type`
with the empty value (FastAPI hands `?type=` to the handler as the empty
string) is a request in which `type` is present, yet the built filter
contains no entry at all — refuting the claim that an entry is added for
every present parameter. -/
theorem resources_filter_empty_param_counterexample :
    resourcesQuery (some "") none = [] ∧
    resourcesQuery (some "") none = resourcesQuery none none := by
  exact ⟨rfl, rfl⟩

/-! ### Validation lemmas -/

theorem isEmpty_false_of_ne_nil {α : Type} {l : List α} (h : l ≠ []) :
    l.isEmpty = false := by
  cases l with
  | nil => exact absurd rfl h
  | cons x xs => rfl

theorem booking_errors_nil_iff (b : RawBooking) :
    Booking.validationErrors b = [] ↔ Booking.specAccepts b = true := by
  obtain ⟨ev, fn, em, ph, tq, no, cs⟩ := b
  rcases ev with _ | ev <;> rcases fn with _ | fn <;> rcases em with _ | em <;>
    rcases tq with _ | q <;>
      simp [Booking.validationErrors, Booking.specAccepts] <;>
        (try split_ifs) <;> simp_all

theorem booking_validate_ok_iff (b : RawBooking) :
    (∃ r, Booking.validate b = .ok r) ↔ Booking.validationErrors b = [] := by
  obtain ⟨ev, fn, em, ph, tq, no, cs⟩ := b
  rcases ev with _ | ev <;> rcases fn with _ | fn <;> rcases em with _ | em <;>
    simp [Booking.validate, Booking.validationErrors] <;>
      (try split_ifs) <;> simp_all

theorem booking_validate_error (b : RawBooking)
    (h : Booking.validationErrors b ≠ []) :
    Booking.validate b = .error (Booking.validationErrors b) := by
  obtain ⟨ev, fn, em, ph, tq, no, cs⟩ := b
  rcases ev with _ | ev <;> rcases fn with _ | fn <;> rcases em with _ | em <;>
    simp_all [Booking.validate]

theorem booking_validate_ok_defaults (b : RawBooking) (r : Booking)
    (hr : Booking.validate b = .ok r) :
    (b.ticket_quantity = none → r.ticket_quantity = 1) ∧
    (b.consent_sms = none → r.consent_sms = false) := by
  obtain ⟨ev, fn, em, ph, tq, no, cs⟩ := b
  rcases ev with _ | ev <;> rcases fn with _ | fn <;> rcases em with _ | em <;>
    simp only [Booking.validate] at hr <;> try (exact absurd hr (by simp))
  split at hr
  · rw [Except.ok.injEq] at hr
    subst hr
    constructor
    · intro htq
      simp only at htq
      simp [htq]
    · intro hcs
      simp only at hcs
      simp [hcs]
  · exact absurd hr (by simp)

theorem booking_invalid_errors_ne (b : RawBooking)
    (h : (b.missingRequired || b.invalidEmail) = true) :
    Booking.validationErrors b ≠ [] := by
  obtain ⟨ev, fn, em, ph, tq, no, cs⟩ := b
  rcases ev with _ | ev <;> rcases fn with _ | fn <;> rcases em with _ | em <;>
    simp_all [RawBooking.missingRequired, RawBooking.invalidEmail,
      Booking.validationErrors]

theorem ta_validate_error (t : RawTrainingApplication)
    (h : TrainingApplication.validationErrors t ≠ []) :
    TrainingApplication.validate t =
      .error (TrainingApplication.validationErrors t) := by
  obtain ⟨fn, em, ph, ag, hq, ar, mo, cs⟩ := t
  rcases fn with _ | fn <;> rcases em with _ | em <;> rcases ph with _ | ph <;>
    simp_all [TrainingApplication.validate]

theorem ta_invalid_errors_ne (t : RawTrainingApplication)
    (h : (t.missingRequired || t.invalidEmail) = true) :
    TrainingApplication.validationErrors t ≠ [] := by
  obtain ⟨fn, em, ph, ag, hq, ar, mo, cs⟩ := t
  rcases fn with _ | fn <;> rcases em with _ | em <;> rcases ph with _ | ph <;>
    simp_all [RawTrainingApplication.missingRequired,
      RawTrainingApplication.invalidEmail, TrainingApplication.validationErrors]

theorem cm_validate_error (c : RawContactMessage)
    (h : ContactMessage.validationErrors c ≠ []) :
    ContactMessage.validate c = .error (ContactMessage.validationErrors c) := by
  obtain ⟨nm, em, ph, su, me⟩ := c
  rcases nm with _ | nm <;> rcases em with _ | em <;> rcases su with _ | su <;>
    rcases me with _ | me <;> simp_all [ContactMessage.validate]

theorem cm_invalid_errors_ne (c : RawContactMessage)
    (h : (c.missingRequired || c.invalidEmail) = true) :
    ContactMessage.validationErrors c ≠ [] := by
  obtain ⟨nm, em, ph, su, me⟩ := c
  rcases nm with _ | nm <;> rcases em with _ | em <;> rcases su with _ | su <;>
    rcases me with _ | me <;>
      simp_all [RawContactMessage.missingRequired,
        RawContactMessage.invalidEmail, ContactMessage.validationErrors]

/-- C2: on every write endpoint, a body missing a required field or with
a syntactically invalid email is answered with a client error (422)
carrying the (non-empty) field-level error list, and the store is left
exactly as it was — no insertion happens. -/
theorem invalid_body_rejected_no_insert :
    ∀ (b : RawBooking) (t : RawTrainingApplication) (c : RawContactMessage)
      (s : Store),
      ((b.missingRequired || b.invalidEmail) = true →
        post_bookings b s =
          (.validationError 422 (Booking.validationErrors b), s) ∧
        (Booking.validationErrors b).isEmpty = false) ∧
      ((t.missingRequired || t.invalidEmail) = true →
        post_applications t s =
          (.validationError 422 (TrainingApplication.validationErrors t), s) ∧
        (TrainingApplication.validationErrors t).isEmpty = false) ∧
      ((c.missingRequired || c.invalidEmail) = true →
        post_contact c s =
          (.validationError 422 (ContactMessage.validationErrors c), s) ∧
        (ContactMessage.validationErrors c).isEmpty = false) := by
  intro b t c s
  refine ⟨fun h => ?_, fun h => ?_, fun h => ?_⟩
  · have hne := booking_invalid_errors_ne b h
    exact ⟨by simp [post_bookings, booking_validate_error b hne],
      isEmpty_false_of_ne_nil hne⟩
  · have hne := ta_invalid_errors_ne t h
    exact ⟨by simp [post_applications, ta_validate_error t hne],
      isEmpty_false_of_ne_nil hne⟩
  · have hne := cm_invalid_errors_ne c h
    exact ⟨by simp [post_contact, cm_validate_error c hne],
      isEmpty_false_of_ne_nil hne⟩

/-- C2 witness: the all-fields-absent body on each endpoint, against a
connected empty store. -/
theorem invalid_body_rejected_no_insert_witness :
    (post_bookings {} emptyStore =
       (.validationError 422 (Booking.validationErrors {}), emptyStore) ∧
     (Booking.validationErrors ({} : RawBooking)).isEmpty = false) ∧
    (post_applications {} emptyStore =
       (.validationError 422 (TrainingApplication.validationErrors {}),
        emptyStore) ∧
     (TrainingApplication.validationErrors
       ({} : RawTrainingApplication)).isEmpty = false) ∧
    (post_contact {} emptyStore =
       (.validationError 422 (ContactMessage.validationErrors {}),
        emptyStore) ∧
     (ContactMessage.validationErrors ({} : RawContactMessage)).isEmpty
       = false) :=
  let h := invalid_body_rejected_no_insert {} {} {} emptyStore
  ⟨h.1 (by decide), h.2.1 (by decide), h.2.2 (by decide)⟩

/-- C5: `Booking` validation accepts a body iff `event_id`, `full_name`
and `email` are present, the email is syntactically valid, and
`ticket_quantity`, when present, lies in `[1, 10]`; in the validated
record an absent `ticket_quantity` defaults to 1 and an absent
`consent_sms` to `false`. -/
theorem booking_validation_iff_spec :
    ∀ (b : RawBooking),
      ((∃ r, Booking.validate b = .ok r) ↔ Booking.specAccepts b = true) ∧
      (∀ r, Booking.validate b = .ok r →
        (b.ticket_quantity = none → r.ticket_quantity = 1) ∧
        (b.consent_sms = none → r.consent_sms = false)) := by
  intro b
  exact ⟨(booking_validate_ok_iff b).trans (booking_errors_nil_iff b),
    fun r hr => booking_validate_ok_defaults b r hr⟩

/-- C5 witness: the concrete body `rb0` (required fields only) is
accepted and validates to `bk0`, whose defaults are 1 and `false`. -/
theorem booking_validation_iff_spec_witness :
    (∃ r, Booking.validate rb0 = .ok r) ∧
    bk0.ticket_quantity = 1 ∧ bk0.consent_sms = false :=
  ⟨(booking_validation_iff_spec rb0).1.mpr (by decide),
   ((booking_validation_iff_spec rb0).2 bk0 rfl).1 rfl,
   ((booking_validation_iff_spec rb0).2 bk0 rfl).2 rfl⟩

/-- C7 amended: the filter of `GET /api/resources` contains an entry for
each of `type` and `language` that is present with a NON-EMPTY value (an
empty-valued parameter contributes nothing) and no other entries; with no
`limit` parameter the default limit is 20; consequently
`GET /api/resources?type=pdf` returns only items whose `type` field
equals `"pdf"`. -/
theorem resources_filter_amended :
    ∀ (qt ql : Option String) (coll : List Document),
      resourcesQuery qt ql =
        (match qt with
          | some t => if t = "" then [] else [("type", Value.str t)]
          | none => []) ++
        (match ql with
          | some l => if l = "" then [] else [("language", Value.str l)]
          | none => []) ∧
      (list_resources (.ok coll) qt ql none).items =
        (coll.filter (fun d => matchesFilter d (resourcesQuery qt ql))).take 20 ∧
      (∀ d, d ∈ (list_resources (.ok coll) (some "pdf") none none).items →
        d.lookup "type" = some (Value.str "pdf")) := by
  intro qt ql coll
  refine ⟨?_, rfl, ?_⟩
  · rcases qt with _ | t <;> rcases ql with _ | l
    · rfl
    · by_cases hl : l = "" <;> simp [resourcesQuery, optStrTruthy, hl]
    · by_cases ht : t = "" <;> simp [resourcesQuery, optStrTruthy, ht]
    · by_cases ht : t = "" <;> by_cases hl : l = "" <;>
        simp [resourcesQuery, optStrTruthy, ht, hl]
  · intro d hd
    have hq : resourcesQuery (some "pdf") none = [("type", Value.str "pdf")] :=
      rfl
    simp only [list_resources, get_documents, hq, Option.getD] at hd
    have hd2 : d ∈ coll.filter
        (fun doc => matchesFilter doc [("type", Value.str "pdf")]) :=
      List.mem_of_mem_take hd
    have hm := (List.mem_filter.mp hd2).2
    simpa [matchesFilter] using hm

/-- C7 amended witness: a store holding one pdf resource; the returned
item has `type = "pdf"`. -/
theorem resources_filter_amended_witness :
    pdfDoc.lookup "type" = some (Value.str "pdf") :=
  (resources_filter_amended (some "pdf") none [pdfDoc]).2.2 pdfDoc (by decide)

end Ekhaya
